import Mathlib

/-!
Shallow embedding of `src/App.tsx` from the inventory dashboard repository.

The component keeps one piece of state, `stocks : Record<string, number>`,
initialised to the empty object.  We model the record as an ordered
association list (JavaScript objects with string keys enumerate in insertion
order, which is also the order `Object.entries` produces).

The three behaviours of the component are embedded as pure functions:
  * `fetchStocksResolve` — what `fetchStocks` does once `axios.get("/v1/stocks")`
    settles: on success it calls `setStocks(res.data)`, on rejection the
    `await` throws and no state update happens;
  * `addStockTrace` — the sequence of HTTP requests one activation of
    `addStock` issues: the `POST /v1/stocks {name:"demo",amount:1}` is always
    sent, and `fetchStocks()` (hence a `GET`) runs only if the awaited post
    resolves, since a rejection aborts the async function body;
  * the `useEffect(() => { fetchStocks(); }, [])` registration, modelled by
    React's rule that an effect re-runs after a render exactly when its
    dependency list differs from the previous render's (the first render
    always runs it); the literal `[]` never differs from itself.

Rendering is the pure function `renderList`, mapping each entry `(k, v)` to
the text `k ++ ": " ++ toString v`, exactly the `<li>{k}: {v}</li>` body.
-/

/-- Errors with which an HTTP promise can reject (connectivity loss or a
non-2xx status turned into a rejection by axios). -/
inductive NetErr where
  | networkFailure : NetErr
  | httpStatus (code : Nat) : NetErr
deriving DecidableEq, Repr

/-- An HTTP request issued by the component. -/
inductive Request where
  | get : Request
  | post (name : String) (amount : Int) : Request
deriving DecidableEq, Repr

/-- The snapshot type: the `Record<string, number>` held in `stocks`,
as an ordered list of (item name, quantity) entries. -/
abbrev Snapshot := List (String × Int)

/-- The component state: `const [stocks, setStocks] = useState<Record<string, number>>({})`. -/
structure AppState where
  stocks : Snapshot
deriving DecidableEq, Repr

/-- The initial state: `useState({})` starts from the empty object. -/
def initialState : AppState := ⟨[]⟩

/-- `setStocks`: replaces the held snapshot with the given one. -/
def setStocks (s : AppState) (d : Snapshot) : AppState := { s with stocks := d }

/-- `fetchStocks` after the awaited `axios.get("/v1/stocks")` settles:
`const res = await axios.get("/v1/stocks"); setStocks(res.data);` —
on resolution the state is replaced with the response body, on rejection
the `await` throws and `setStocks` is never reached. -/
def fetchStocksResolve (s : AppState) (res : Except NetErr Snapshot) : AppState :=
  match res with
  | .ok data => setStocks s data
  | .error _ => s

/-- The requests issued by one activation of `addStock`, given the outcome of
the awaited post: `await axios.post("/v1/stocks", { name: "demo", amount: 1 });
fetchStocks();` — the post is always issued; the call to `fetchStocks`
(which issues the `GET`) is reached only when the `await` resolves, since a
rejection aborts the async function body. -/
def addStockTrace (postRes : Except NetErr Unit) : List Request :=
  Request.post "demo" 1 ::
    (match postRes with
     | .ok _ => [Request.get]
     | .error _ => [])

/-- An event delivered to the mounted component by the event loop. -/
inductive Event where
  | listResolves (res : Except NetErr Snapshot) : Event
  | addClick (postRes : Except NetErr Unit) : Event

/-- One event-loop step of the mounted component: the new state and the
requests issued while handling the event.  A resolving list response runs the
tail of `fetchStocks`; a button activation runs `addStock` (whose state effect
is nil — only a later `listResolves` can change the snapshot). -/
def step (s : AppState) (e : Event) : AppState × List Request :=
  match e with
  | .listResolves res => (fetchStocksResolve s res, [])
  | .addClick postRes => (s, addStockTrace postRes)

/-- Applying a sequence of successful list responses in resolution order:
each one replaces the snapshot wholesale. -/
def applyListResponses (s : AppState) (rs : List Snapshot) : AppState :=
  rs.foldl (fun st r => fetchStocksResolve st (Except.ok r)) s

/-- The dependency array of the component's sole effect:
`useEffect(() => { fetchStocks(); }, [])`. -/
def appEffectDeps : List Int := []

/-- The requests issued by the effect body `() => { fetchStocks(); }`. -/
def effectRequests : List Request := [Request.get]

/-- Whether React runs the effect after render number `i` (0-indexed):
always after the first render, and after a later render exactly when the
dependency list differs from the one captured at the previous render.
The component's dependency list is the constant literal `[]`. -/
def effectFires : Nat → Bool
  | 0 => true
  | _ + 1 => decide (appEffectDeps ≠ appEffectDeps)

/-- All requests issued automatically (by the effect, without user action)
over the first `n` renders of one mount. -/
def autoRequests (n : Nat) : List Request :=
  ((List.range n).map (fun i => if effectFires i then effectRequests else [])).flatten

/-- Rendering of one snapshot entry: the `<li key={k}>{k}: {v}</li>` body. -/
def renderEntry (kv : String × Int) : String := kv.1 ++ ": " ++ toString kv.2

/-- Rendering of the list: `Object.entries(stocks).map(([k, v]) => <li>…</li>)`,
one entry per binding, in the snapshot's enumeration order. -/
def renderList (stocks : Snapshot) : List String := stocks.map renderEntry

/-- C1: a successful List operation replaces the snapshot wholesale with the
response body: whatever the prior state held, the snapshot afterwards equals
exactly the response mapping, never a merge with the prior one. -/
theorem list_success_replaces_wholesale (s : AppState) (data : Snapshot) :
    (fetchStocksResolve s (Except.ok data)).stocks = data := rfl

/-- C3: a List operation whose promise rejects performs no state update:
the snapshot after the failed call equals the snapshot before it. -/
theorem list_failure_leaves_state (s : AppState) (e : NetErr) :
    fetchStocksResolve s (Except.error e) = s := rfl

/-- C4: at component initialization, before any List resolves, the snapshot
is the empty mapping. -/
theorem initial_snapshot_empty : initialState.stocks = [] := rfl

/-- C5: on initial display — after the first render, with no user action —
the effect fires and issues exactly one List read request. -/
theorem mount_triggers_read : autoRequests 1 = [Request.get] := rfl

/-- C6: rendering the snapshot holding exactly the binding "x" ↦ 0 produces
exactly one list entry, whose text is "x: 0". -/
theorem render_single_zero_entry : renderList [("x", 0)] = ["x: 0"] := rfl

/-- C7: snapshot replacement is last-writer-wins: after a sequence of
resolving List responses, the snapshot equals the response that resolved
last, whatever responses resolved before it. -/
theorem replace_last_writer_wins (s : AppState) (rs : List Snapshot) (r : Snapshot) :
    (applyListResponses s (rs ++ [r])).stocks = r := by
  simp [applyListResponses, List.foldl_append, fetchStocksResolve, setStocks]

/-- C8: when the create action's write rejects, that activation issues no
read request — only the write with payload {"demo", 1} — and the snapshot
is left unchanged. -/
theorem failed_write_no_read_no_update (s : AppState) (e : NetErr) :
    step s (Event.addClick (Except.error e)) = (s, [Request.post "demo" 1]) := rfl

/-- C2 (counterexample): the claim that the read is issued regardless of the
write's outcome is false — for a rejecting write, no GET appears in the
activation's request trace. -/
theorem create_failed_write_issues_no_read :
    Request.get ∉ addStockTrace (Except.error NetErr.networkFailure) := by
  decide

/-- C2 (amended): every activation of the create action issues the write with
the fixed payload {"demo", 1} first, and a single read follows exactly when
the write resolves; a rejecting write issues no read. -/
theorem create_write_then_conditional_read (postRes : Except NetErr Unit) :
    (addStockTrace postRes).head? = some (Request.post "demo" 1) ∧
    ((addStockTrace postRes).count (Request.post "demo" 1)) = 1 ∧
    ((addStockTrace postRes).count Request.get) =
      (match postRes with | .ok _ => 1 | .error _ => 0) := by
  cases postRes <;> simp [addStockTrace, List.count_cons]

/-- C9: the automatic List read fires exactly once per mount: however many
re-renders follow the first, the effect's dependency list (the literal `[]`)
never changes, so the only automatically issued request remains the single
initial read. -/
theorem auto_read_once_per_mount (n : Nat) (h : 1 ≤ n) :
    autoRequests n = [Request.get] := by
  induction n with
  | zero => omega
  | succ m ih =>
    cases m with
    | zero => rfl
    | succ k =>
      have hm : 1 ≤ k + 1 := by omega
      have hrw : List.range (k + 1 + 1) = List.range (k + 1) ++ [k + 1] :=
        List.range_succ (k + 1)
      have hfire : effectFires (k + 1) = false := by simp [effectFires]
      have h2 := ih hm
      simp only [autoRequests] at h2 ⊢
      rw [hrw, List.map_append, List.flatten_append, h2]
      simp [hfire]

/-- C9 witness: three renders after one mount still issue exactly one read. -/
theorem auto_read_once_per_mount_witness : autoRequests 3 = [Request.get] :=
  auto_read_once_per_mount 3 (by decide)

/-- C10: rendering is a deterministic pure function of the snapshot: equal
snapshots render identically, and the rendered list holds exactly one entry
"name: quantity" per binding, in the snapshot's enumeration order. -/
theorem render_deterministic_in_order (s₁ s₂ : Snapshot) (h : s₁ = s₂) :
    renderList s₁ = renderList s₂ ∧
    (renderList s₁).length = s₁.length ∧
    ∀ i : Nat, (renderList s₁)[i]? = (s₁[i]?).map renderEntry := by
  subst h
  refine ⟨rfl, by simp [renderList], fun i => ?_⟩
  simp [renderList, List.getElem?_map]

/-- C10 witness: at the concrete snapshot [("x", 0), ("y", 2)]. -/
theorem render_deterministic_in_order_witness :
    renderList [("x", 0), ("y", 2)] = renderList [("x", 0), ("y", 2)] ∧
    (renderList [("x", 0), ("y", 2)]).length = ([("x", 0), ("y", 2)] : Snapshot).length ∧
    ∀ i : Nat, (renderList [("x", 0), ("y", 2)])[i]? =
      (([("x", 0), ("y", 2)] : Snapshot)[i]?).map renderEntry :=
  render_deterministic_in_order [("x", 0), ("y", 2)] [("x", 0), ("y", 2)] rfl
